import Mathlib

set_option linter.all false

/-!
Shallow embedding of the discord-aqi-bot sources (`lib/airnow.py` and
`handler.py`).  Python exceptions are modelled by the `PyError` type and
fallible operations return `Except PyError _`.  Python `dict` kwargs are
modelled by the `Kwargs` structure: one optional slot per recognised
keyword plus an insertion-ordered association list for unrecognised keys
(a dict's final value for a key is its last write, which is exactly what
the star-star splat of the dict observes).
-/

deriving instance DecidableEq for Except

/-- Errors raised by the Python code: `NoDataError` from the client,
`IndexError` from `data[0]` on an empty list, `ValueError` from
`Severity(n)` with `n` outside the enum, `ValueError` from
`date.fromisoformat` on a malformed string, `TypeError` from an
unexpected or missing dataclass constructor keyword, `KeyError` from
`TIMEZONE_LOOKUP[tz]`, and `ValueError` from `datetime.datetime` given
an out-of-range hour. -/
inductive PyError where
  | noData : PyError
  | indexError : PyError
  | invalidSeverity : Int → PyError
  | invalidDate : String → PyError
  | unexpectedKeyword : String → PyError
  | missingArgument : String → PyError
  | keyError : String → PyError
  | invalidHour : Int → PyError
deriving DecidableEq

/-- Embeds the `Severity` enum of `lib/airnow.py` (values 1..6). -/
inductive Severity where
  | GOOD : Severity
  | MODERATE : Severity
  | USG : Severity
  | UNHEALTHY : Severity
  | VERY_UNHEALTHY : Severity
  | HAZARDOUS : Severity
deriving DecidableEq

/-- Embeds the Python enum call `Severity(n)`: succeeds exactly on the
declared member values 1..6, raises `ValueError` otherwise. -/
def Severity.ofInt (n : Int) : Option Severity :=
  if n = 1 then some .GOOD
  else if n = 2 then some .MODERATE
  else if n = 3 then some .USG
  else if n = 4 then some .UNHEALTHY
  else if n = 5 then some .VERY_UNHEALTHY
  else if n = 6 then some .HAZARDOUS
  else none

/-- Embeds the `AQI` dataclass: one pollutant's reading. -/
structure AQI where
  name : String
  AQI : Int
  severity : Severity
  is_action_day : Option Bool := none
deriving DecidableEq

/-- Embeds `datetime.date`: a calendar date (built only through
`parseIsoDate`, mirroring `date.fromisoformat`). -/
structure Date where
  year : Nat
  month : Nat
  day : Nat
deriving DecidableEq

/-- Day count of a month, with Gregorian leap years, as validated by
`datetime.date`. -/
def daysInMonth (y m : Nat) : Nat :=
  if m = 2 then
    (if (y % 4 = 0 ∧ y % 100 ≠ 0) ∨ y % 400 = 0 then 29 else 28)
  else if m = 4 ∨ m = 6 ∨ m = 9 ∨ m = 11 then 30
  else 31

/-- Numeric value of a decimal digit character. -/
def digitVal (c : Char) : Nat := c.toNat - 48

/-- Embeds `datetime.date.fromisoformat`: strict `YYYY-MM-DD` with a
valid month, day and year (Python's `MINYEAR` is 1). -/
def parseIsoDate (s : String) : Option Date :=
  match s.data with
  | [y1, y2, y3, y4, c1, m1, m2, c2, d1, d2] =>
    if y1.isDigit ∧ y2.isDigit ∧ y3.isDigit ∧ y4.isDigit ∧ c1 = '-' ∧
        m1.isDigit ∧ m2.isDigit ∧ c2 = '-' ∧ d1.isDigit ∧ d2.isDigit then
      let y := ((digitVal y1 * 10 + digitVal y2) * 10 + digitVal y3) * 10 + digitVal y4
      let m := digitVal m1 * 10 + digitVal m2
      let d := digitVal d1 * 10 + digitVal d2
      if 1 ≤ y ∧ 1 ≤ m ∧ m ≤ 12 ∧ 1 ≤ d ∧ d ≤ daysInMonth y m then
        some ⟨y, m, d⟩
      else none
    else none
  | _ => none

/-- Embeds Python `str.rstrip()`: drop trailing whitespace. -/
def pyRstrip (s : String) : String :=
  String.mk (s.data.reverse.dropWhile Char.isWhitespace).reverse

/-- Composition `date.fromisoformat(s.rstrip())` as used by both
builders, raising `ValueError` on a malformed date. -/
def parseDateE (s : String) : Except PyError Date :=
  match parseIsoDate (pyRstrip s) with
  | some d => .ok d
  | none => .error (.invalidDate s)

/-- Embeds the `TIMEZONE_LOOKUP` table of `lib/airnow.py`, in source
order. -/
def TIMEZONE_LOOKUP : List (String × Int) :=
  [("HST", -10), ("HDT", -9), ("AKST", -9), ("AKDT", -8),
   ("PST", -8), ("PDT", -7), ("MST", -7), ("MDT", -6),
   ("CST", -6), ("CDT", -5), ("EST", -5), ("EDT", -4),
   ("AST", -4), ("ADT", -3)]

/-- Embeds `datetime.timezone(delta, tz)`: a fixed offset (in whole
hours here, since the table only holds whole hours) plus its name. -/
structure Timezone where
  offsetHours : Int
  tzname : String
deriving DecidableEq

/-- Embeds `get_timezone` of `lib/airnow.py`: the dict lookup
`TIMEZONE_LOOKUP[tz]` raises `KeyError` on a missing key; the branch on
the sign of the offset reproduces the source's `timedelta`
construction, which is the identity on the offset. -/
def get_timezone (tz : String) : Except PyError Timezone :=
  match TIMEZONE_LOOKUP.lookup tz with
  | none => .error (.keyError tz)
  | some offset =>
    let delta : Int := if offset < 0 then -(Int.ofNat offset.natAbs) else offset
    .ok { offsetHours := delta, tzname := tz }

/-- Embeds `datetime.datetime(year, month, day, hour, tzinfo=tz)` as
built by `Observation.__post_init__`. -/
structure PyDateTime where
  year : Nat
  month : Nat
  day : Nat
  hour : Int
  tz : Timezone
deriving DecidableEq

/-- Embeds one raw record of the observation endpoint's JSON array
(the fields `_build_observation` reads; `Category.Number` is flattened
to `CategoryNumber`). -/
structure RawObsRecord where
  DateObserved : String
  HourObserved : Int
  LocalTimeZone : String
  ReportingArea : String
  StateCode : String
  Latitude : Float
  Longitude : Float
  ParameterName : String
  AQI : Int
  CategoryNumber : Int

/-- Embeds one raw record of the forecast endpoint's JSON array (the
fields `_build_forecasts` reads). -/
structure RawForecastRecord where
  DateIssue : String
  DateForecast : String
  ReportingArea : String
  StateCode : String
  Latitude : Float
  Longitude : Float
  ParameterName : String
  AQI : Int
  CategoryNumber : Int
  ActionDay : Bool

/-- Embeds the `Observation` dataclass.  The five metric slots default
to `None`; `datetime_observed` is the attribute added by
`__post_init__`. -/
structure Observation where
  date_observed : Date
  hour_observed : Int
  local_tz : String
  reporting_area : String
  state_code : String
  latitude : Float
  longitude : Float
  CO : Option AQI := none
  NO2 : Option AQI := none
  O3 : Option AQI := none
  PM2_5 : Option AQI := none
  PM10 : Option AQI := none
  datetime_observed : PyDateTime

/-- Embeds the `Forecast` dataclass.  Its five metric fields have NO
defaults in the source (unlike `Observation`), so all five are required
at construction; only `discussion` defaults (to `None`).  The source
annotates `discussion` as an optional string, but the mapper never
populates it from this API's fields; the only value this program can
ever place there is the `AQI` object of a record whose
`ParameterName` is `discussion` (a valid constructor keyword, since the
field is defaulted), so the slot is typed by that runtime content. -/
structure Forecast where
  date_issued : Date
  date_forecast : Date
  reporting_area : String
  state_code : String
  latitude : Float
  longitude : Float
  CO : AQI
  NO2 : AQI
  O3 : AQI
  PM2_5 : AQI
  PM10 : AQI
  discussion : Option AQI := none

/-- Embeds `Observation.__iter__`: the five metric slots in fixed
order. -/
def Observation.metrics (o : Observation) : List (Option AQI) :=
  [o.CO, o.NO2, o.O3, o.PM2_5, o.PM10]

/-- Embeds `Forecast.__iter__`: the five metric slots in fixed order
(every slot holds an `AQI` value, which is always truthy). -/
def Forecast.metrics (f : Forecast) : List (Option AQI) :=
  [some f.CO, some f.NO2, some f.O3, some f.PM2_5, some f.PM10]

/-- Embeds the slot-name derivation of both builders: the label
`PM2.5` is rewritten to `PM2_5`; every other `ParameterName` is used
verbatim as the constructor keyword. -/
def metricName (p : String) : String :=
  if p = "PM2.5" then "PM2_5" else p

/-- Models the `kwargs` dict built by the record loop of each builder:
one optional slot per keyword the entity constructors can accept (the
five metric slots, plus `discussion`, which `Forecast.__init__` accepts
as a defaulted field while `Observation.__init__` rejects it), plus the
remaining keys in dict insertion order.  A dict write is
last-write-wins per key, which this partition preserves exactly. -/
structure Kwargs where
  CO : Option AQI := none
  NO2 : Option AQI := none
  O3 : Option AQI := none
  PM2_5 : Option AQI := none
  PM10 : Option AQI := none
  discussion : Option AQI := none
  unknown : List (String × AQI) := []

/-- Write to a key of the `unknown` part of the kwargs dict: overwrite
in place when present, append when new (Python dict semantics). -/
def unknownInsert (u : List (String × AQI)) (k : String) (v : AQI) :
    List (String × AQI) :=
  if u.any (fun p => p.1 = k) then
    u.map (fun p => if p.1 = k then (k, v) else p)
  else u ++ [(k, v)]

/-- Embeds `kwargs[metric_name] = aqi`. -/
def Kwargs.set (kw : Kwargs) (k : String) (v : AQI) : Kwargs :=
  if k = "CO" then { kw with CO := some v }
  else if k = "NO2" then { kw with NO2 := some v }
  else if k = "O3" then { kw with O3 := some v }
  else if k = "PM2_5" then { kw with PM2_5 := some v }
  else if k = "PM10" then { kw with PM10 := some v }
  else if k = "discussion" then { kw with discussion := some v }
  else { kw with unknown := unknownInsert kw.unknown k v }

/-- Embeds the `AQI(...)` construction inside `_build_observation`'s
loop: `is_action_day` is left at its default. -/
def mkObsAqi (dp : RawObsRecord) (sev : Severity) : AQI :=
  { name := dp.ParameterName, AQI := dp.AQI, severity := sev, is_action_day := none }

/-- Embeds the `AQI(...)` construction inside `_build_forecasts`'s
loop: `is_action_day` is populated from the record's `ActionDay`. -/
def mkFcAqi (dp : RawForecastRecord) (sev : Severity) : AQI :=
  { name := dp.ParameterName, AQI := dp.AQI, severity := sev,
    is_action_day := some dp.ActionDay }

/-- Embeds one iteration of `_build_observation`'s record loop: build
the `AQI` (raising `ValueError` on a bad category number) and write it
into the kwargs dict under the derived slot name. -/
def addRecordObs (kw : Kwargs) (dp : RawObsRecord) : Except PyError Kwargs :=
  match Severity.ofInt dp.CategoryNumber with
  | some sev => .ok (kw.set (metricName dp.ParameterName) (mkObsAqi dp sev))
  | none => .error (.invalidSeverity dp.CategoryNumber)

/-- Embeds one iteration of `_build_forecasts`'s inner record loop. -/
def addRecordFc (kw : Kwargs) (dp : RawForecastRecord) : Except PyError Kwargs :=
  match Severity.ofInt dp.CategoryNumber with
  | some sev => .ok (kw.set (metricName dp.ParameterName) (mkFcAqi dp sev))
  | none => .error (.invalidSeverity dp.CategoryNumber)

/-- Embeds `for dp in data: ...` of `_build_observation`, threading the
kwargs dict. -/
def foldKwObs (kw : Kwargs) : List RawObsRecord → Except PyError Kwargs
  | [] => .ok kw
  | dp :: rest =>
    match addRecordObs kw dp with
    | .error e => .error e
    | .ok kw' => foldKwObs kw' rest

/-- Embeds `for dp in dp_list: ...` of `_build_forecasts`. -/
def foldKwFc (kw : Kwargs) : List RawForecastRecord → Except PyError Kwargs
  | [] => .ok kw
  | dp :: rest =>
    match addRecordFc kw dp with
    | .error e => .error e
    | .ok kw' => foldKwFc kw' rest

/-- Embeds `Observation(*args, **kwargs)` followed by
`__post_init__`: an unrecognised keyword raises `TypeError`; then the
timezone is resolved (`KeyError` on an unknown code) and the
`datetime` is built (`ValueError` on an out-of-range hour). -/
def mkObservation (d : Date) (hour : Int) (tz_code area code : String)
    (lat lon : Float) (kw : Kwargs) : Except PyError Observation :=
  match kw.unknown with
  | (k, _) :: _ => .error (.unexpectedKeyword k)
  | [] =>
    match kw.discussion with
    | some _ => .error (.unexpectedKeyword "discussion")
    | none =>
    match get_timezone tz_code with
    | .error e => .error e
    | .ok tz =>
    if 0 ≤ hour ∧ hour ≤ 23 then
      .ok { date_observed := d, hour_observed := hour, local_tz := tz_code,
            reporting_area := area, state_code := code,
            latitude := lat, longitude := lon,
            CO := kw.CO, NO2 := kw.NO2, O3 := kw.O3,
            PM2_5 := kw.PM2_5, PM10 := kw.PM10,
            datetime_observed :=
              { year := d.year, month := d.month, day := d.day,
                hour := hour, tz := tz } }
    else .error (.invalidHour hour)

/-- Helper for `Forecast(*args, **kwargs)`: the five metric fields of
`Forecast` have no default, so a slot never written in the kwargs dict
raises `TypeError` (missing required argument). -/
def requireSlot (name : String) : Option AQI → Except PyError AQI
  | some a => .ok a
  | none => .error (.missingArgument name)

/-- Embeds `Forecast(*args, **kwargs)`: an unrecognised keyword raises
`TypeError`; `discussion` is a recognised (defaulted) keyword and is
passed through to the field; a missing metric keyword raises
`TypeError` as well, because none of `CO NO2 O3 PM2_5 PM10` has a
default in the dataclass. -/
def mkForecast (d_issue d_fc : Date) (area code : String)
    (lat lon : Float) (kw : Kwargs) : Except PyError Forecast :=
  match kw.unknown with
  | (k, _) :: _ => .error (.unexpectedKeyword k)
  | [] =>
    match requireSlot "CO" kw.CO, requireSlot "NO2" kw.NO2,
        requireSlot "O3" kw.O3, requireSlot "PM2_5" kw.PM2_5,
        requireSlot "PM10" kw.PM10 with
    | .ok co, .ok no2, .ok o3, .ok pm25, .ok pm10 =>
      .ok { date_issued := d_issue, date_forecast := d_fc,
            reporting_area := area, state_code := code,
            latitude := lat, longitude := lon,
            CO := co, NO2 := no2, O3 := o3, PM2_5 := pm25, PM10 := pm10,
            discussion := kw.discussion }
    | .error e, _, _, _, _ => .error e
    | _, .error e, _, _, _ => .error e
    | _, _, .error e, _, _ => .error e
    | _, _, _, .error e, _ => .error e
    | _, _, _, _, .error e => .error e

/-- Embeds `AirNow._build_observation`: `data[0]` raises `IndexError`
on an empty list; the header args are evaluated first (parsing the
date), then the record loop runs, then the entity is constructed. -/
def buildObservation (data : List RawObsRecord) : Except PyError Observation :=
  match data with
  | [] => .error .indexError
  | first :: _ =>
    match parseDateE first.DateObserved with
    | .error e => .error e
    | .ok d =>
      match foldKwObs {} data with
      | .error e => .error e
      | .ok kw =>
        mkObservation d first.HourObserved first.LocalTimeZone
          first.ReportingArea first.StateCode first.Latitude first.Longitude kw

/-- Embeds one insertion into the `dates` dict of `_build_forecasts`:
append to the list of an existing key, else add a new key at the
end. -/
def insertRecord (dates : List (String × List RawForecastRecord))
    (dp : RawForecastRecord) : List (String × List RawForecastRecord) :=
  if dp.DateForecast ∈ dates.map Prod.fst then
    dates.map (fun p => if p.1 = dp.DateForecast then (p.1, p.2 ++ [dp]) else p)
  else dates ++ [(dp.DateForecast, [dp])]

/-- Embeds the grouping loop of `_build_forecasts`: the `dates` dict,
keyed by the raw `DateForecast` string, insertion-ordered. -/
def groupByDate (data : List RawForecastRecord) :
    List (String × List RawForecastRecord) :=
  data.foldl insertRecord []

/-- Embeds one iteration of `for dp_list in dates.values()`: build one
`Forecast` from a group (header fields from the group's first record,
then the record loop, then construction). -/
def buildForecast (dp_list : List RawForecastRecord) : Except PyError Forecast :=
  match dp_list with
  | [] => .error .indexError
  | first :: _ =>
    match parseDateE first.DateIssue with
    | .error e => .error e
    | .ok d_issue =>
      match parseDateE first.DateForecast with
      | .error e => .error e
      | .ok d_fc =>
        match foldKwFc {} dp_list with
        | .error e => .error e
        | .ok kw =>
          mkForecast d_issue d_fc first.ReportingArea first.StateCode
            first.Latitude first.Longitude kw

/-- Embeds the forecast-building loop over `dates.values()`,
accumulating the `forecasts` list in group order. -/
def forecastsOf : List (String × List RawForecastRecord) →
    Except PyError (List Forecast)
  | [] => .ok []
  | g :: gs =>
    match buildForecast g.2 with
    | .error e => .error e
    | .ok f =>
      match forecastsOf gs with
      | .error e => .error e
      | .ok fs => .ok (f :: fs)

/-- Embeds `AirNow._build_forecasts`: group by `DateForecast`, then
build one `Forecast` per group in key-insertion order. -/
def buildForecasts (data : List RawForecastRecord) :
    Except PyError (List Forecast) :=
  forecastsOf (groupByDate data)

/-- Embeds the post-HTTP part of `AirNow.get_current`: `if not data`
(empty JSON array) raises `NoDataError`, otherwise the builder runs.
The HTTP transport itself is out of scope; `data` is the decoded
response array. -/
def get_current_data (data : List RawObsRecord) : Except PyError Observation :=
  if data.isEmpty then .error .noData else buildObservation data

/-- Embeds the post-HTTP part of `AirNow.get_forecast`. -/
def get_forecast_data (data : List RawForecastRecord) :
    Except PyError (List Forecast) :=
  if data.isEmpty then .error .noData else buildForecasts data

/-- Embeds Python `str.rjust(w)` with the default space fill: pad on
the left up to width `w`. -/
def rjust (s : String) (w : Nat) : String :=
  if w ≤ s.length then s
  else String.mk (List.replicate (w - s.length) ' ') ++ s

/-- Embeds Python `str.ljust(w)` with the default space fill: pad on
the right up to width `w`. -/
def ljust (s : String) (w : Nat) : String :=
  if w ≤ s.length then s
  else s ++ String.mk (List.replicate (w - s.length) ' ')

/-- Embeds `rows.rstrip("\n")` of `get_aqi_rows`. -/
def rstripNewlines (s : String) : String :=
  String.mk (s.data.reverse.dropWhile (fun c => c = '\n')).reverse

/-- Embeds one row of `get_aqi_rows`:
`f-string metric.name.rjust(8) ++ "  |" ++ "  " ++ str(metric.AQI).ljust(8) ++ newline`. -/
def aqiRow (m : AQI) : String :=
  rjust m.name 8 ++ "  |" ++ "  " ++ ljust (toString m.AQI) 8 ++ "\n"

/-- Embeds `handler.get_aqi_rows` applied to the metric sequence the
entity's `__iter__` yields: falsy (`None`) slots are skipped, present
metrics are rendered in iteration order, and trailing newlines are
stripped at the end. -/
def get_aqi_rows (metrics : List (Option AQI)) : String :=
  rstripNewlines (metrics.foldl
    (fun rows m => match m with
      | some metric => rows ++ aqiRow metric
      | none => rows) "")

/-- Embeds `handler.is_evening`.  The current UTC clock reading is
passed explicitly as seconds since midnight of the current UTC date;
`morning_range[i]` on a short list raises `IndexError` and
`datetime.time(hour=h)` raises `ValueError` for an hour outside
0..23.  The window test compares the current datetime against
`start_hour:00` and `end_hour:00` of the same date, inclusively. -/
def is_evening (morning_range : List Int) (nowSec : Nat) : Except PyError Bool :=
  match morning_range with
  | s :: e :: _ =>
    if ¬(0 ≤ s ∧ s ≤ 23) then .error (.invalidHour s)
    else if ¬(0 ≤ e ∧ e ≤ 23) then .error (.invalidHour e)
    else if s * 3600 ≤ (nowSec : Int) ∧ (nowSec : Int) ≤ e * 3600 then
      .ok false
    else .ok true
  | _ => .error .indexError

/-- Specification-side definition for the grouping refinement,
following the spec's words: the distinct `DateForecast` values of the
input, in the order each one was first encountered. -/
def firstSeenDates (data : List RawForecastRecord) : List String :=
  data.foldl
    (fun acc dp =>
      if dp.DateForecast ∈ acc then acc else acc ++ [dp.DateForecast]) []

/-- Property that at least one of the five kwargs slots has been
written. -/
def Kwargs.someSlot (kw : Kwargs) : Prop :=
  kw.CO.isSome = true ∨ kw.NO2.isSome = true ∨ kw.O3.isSome = true ∨
    kw.PM2_5.isSome = true ∨ kw.PM10.isSome = true

/-- Property threaded through the kwargs loop: some metric slot, the
discussion slot, or some other key was written. -/
def Kwargs.written (kw : Kwargs) : Prop :=
  kw.someSlot ∨ kw.discussion.isSome = true ∨ kw.unknown ≠ []

/-- Property making `Observation(*args, **kwargs)` fail on its
keywords: the dict holds the `discussion` key (not a field of
`Observation`) or some other unrecognised key. -/
def Kwargs.rejectedObs (kw : Kwargs) : Prop :=
  kw.discussion.isSome = true ∨ kw.unknown ≠ []

/-- Sample observation response: five records for one place and time,
one per pollutant, with the label `PM2.5` among them. -/
def fiveRecords : List RawObsRecord :=
  [{ DateObserved := "2024-01-01", HourObserved := 10, LocalTimeZone := "PST",
     ReportingArea := "Oakland", StateCode := "CA", Latitude := 37.8, Longitude := -122.2,
     ParameterName := "CO", AQI := 5, CategoryNumber := 1 },
   { DateObserved := "2024-01-01", HourObserved := 10, LocalTimeZone := "PST",
     ReportingArea := "Oakland", StateCode := "CA", Latitude := 37.8, Longitude := -122.2,
     ParameterName := "NO2", AQI := 12, CategoryNumber := 1 },
   { DateObserved := "2024-01-01", HourObserved := 10, LocalTimeZone := "PST",
     ReportingArea := "Oakland", StateCode := "CA", Latitude := 37.8, Longitude := -122.2,
     ParameterName := "O3", AQI := 51, CategoryNumber := 2 },
   { DateObserved := "2024-01-01", HourObserved := 10, LocalTimeZone := "PST",
     ReportingArea := "Oakland", StateCode := "CA", Latitude := 37.8, Longitude := -122.2,
     ParameterName := "PM2.5", AQI := 57, CategoryNumber := 2 },
   { DateObserved := "2024-01-01", HourObserved := 10, LocalTimeZone := "PST",
     ReportingArea := "Oakland", StateCode := "CA", Latitude := 37.8, Longitude := -122.2,
     ParameterName := "PM10", AQI := 20, CategoryNumber := 1 }]

/-- Sample observation record whose `Category.Number` is 7, outside
the `Severity` range. -/
def cat7Record : RawObsRecord :=
  { DateObserved := "2024-01-01", HourObserved := 10, LocalTimeZone := "PST",
    ReportingArea := "Oakland", StateCode := "CA", Latitude := 37.8, Longitude := -122.2,
    ParameterName := "O3", AQI := 999, CategoryNumber := 7 }

/-- Sample forecast record reporting only the `O3` pollutant for its
date. -/
def o3OnlyFcRecord : RawForecastRecord :=
  { DateIssue := "2024-01-01", DateForecast := "2024-01-02",
    ReportingArea := "Oakland", StateCode := "CA", Latitude := 37.8, Longitude := -122.2,
    ParameterName := "O3", AQI := 42, CategoryNumber := 1, ActionDay := false }

/-- Sample `AQI` metric for the `O3` slot. -/
def o3Metric : AQI :=
  { name := "O3", AQI := 42, severity := .GOOD, is_action_day := none }

/-- Sample `Observation` whose only populated metric slot is `O3`. -/
def o3OnlyObs : Observation :=
  { date_observed := ⟨2024, 1, 1⟩, hour_observed := 10, local_tz := "PST",
    reporting_area := "Oakland", state_code := "CA",
    latitude := 37.8, longitude := -122.2,
    O3 := some o3Metric,
    datetime_observed := ⟨2024, 1, 1, 10, ⟨-8, "PST"⟩⟩ }

/-- Sample observation record whose `ParameterName` is the slot
identifier `PM2_5` itself (not one of the five API labels). -/
def pmuRecord : RawObsRecord :=
  { DateObserved := "2024-01-01", HourObserved := 9, LocalTimeZone := "PST",
    ReportingArea := "Oakland", StateCode := "CA", Latitude := 37.8, Longitude := -122.2,
    ParameterName := "PM2_5", AQI := 33, CategoryNumber := 1 }

/-- Sample observation record with an unrecognised pollutant label. -/
def so2Record : RawObsRecord :=
  { DateObserved := "2024-01-01", HourObserved := 9, LocalTimeZone := "PST",
    ReportingArea := "Oakland", StateCode := "CA", Latitude := 37.8, Longitude := -122.2,
    ParameterName := "SO2", AQI := 18, CategoryNumber := 1 }

/-- Sample forecast record with an unrecognised pollutant label. -/
def so2FcRecord : RawForecastRecord :=
  { DateIssue := "2024-01-01", DateForecast := "2024-01-02",
    ReportingArea := "Oakland", StateCode := "CA", Latitude := 37.8, Longitude := -122.2,
    ParameterName := "SO2", AQI := 18, CategoryNumber := 1, ActionDay := false }

/-- Shorthand for a full forecast record. -/
def fcRec (dfc : String) (p : String) (v : Int) : RawForecastRecord :=
  { DateIssue := "2024-01-01", DateForecast := dfc,
    ReportingArea := "Oakland", StateCode := "CA", Latitude := 37.8, Longitude := -122.2,
    ParameterName := p, AQI := v, CategoryNumber := 1, ActionDay := false }

/-- Sample forecast response: one date group with all five pollutants
plus a record labelled `discussion`, which `Forecast.__init__` accepts
as its defaulted `discussion` keyword. -/
def fcDiscussionSample : List RawForecastRecord :=
  [fcRec "2024-01-02" "CO" 3, fcRec "2024-01-02" "NO2" 11,
   fcRec "2024-01-02" "O3" 41, fcRec "2024-01-02" "PM2.5" 51,
   fcRec "2024-01-02" "PM10" 21, fcRec "2024-01-02" "discussion" 7]

/-- Sample forecast response: two distinct `DateForecast` values with
their records interleaved, each date reporting all five pollutants. -/
def fcSample : List RawForecastRecord :=
  [fcRec "2024-01-02" "CO" 3, fcRec "2024-01-03" "CO" 4,
   fcRec "2024-01-02" "NO2" 11, fcRec "2024-01-03" "NO2" 12,
   fcRec "2024-01-02" "O3" 41, fcRec "2024-01-03" "O3" 44,
   fcRec "2024-01-02" "PM2.5" 51, fcRec "2024-01-03" "PM2.5" 52,
   fcRec "2024-01-02" "PM10" 21, fcRec "2024-01-03" "PM10" 22]

/-! Helper lemmas. -/

/-- Lookup in an association list misses every key not in the key
column. -/
theorem lookup_none_of_not_mem_keys (l : List (String × Int)) (code : String)
    (h : code ∉ l.map Prod.fst) : l.lookup code = none := by
  induction l with
  | nil => rfl
  | cons p rest ih =>
    obtain ⟨k, v⟩ := p
    have h1 : code ≠ k := fun he => h (by simp [he])
    simp only [List.lookup]
    rw [show (code == k) = false from beq_eq_false_iff_ne.mpr h1]
    exact ih (fun hm => h (by simp [List.map_cons, List.mem_cons]; right; simpa using hm))

/-! Claim theorems. -/

/-- C6: for each of the 14 supported timezone abbreviation codes the
resolver returns the documented fixed whole-hour UTC offset, and for
every code outside that table it fails with the unknown-timezone
(`KeyError`) error carrying the code. -/
theorem get_timezone_resolves :
    (get_timezone "HST" = .ok ⟨-10, "HST"⟩ ∧ get_timezone "HDT" = .ok ⟨-9, "HDT"⟩ ∧
     get_timezone "AKST" = .ok ⟨-9, "AKST"⟩ ∧ get_timezone "AKDT" = .ok ⟨-8, "AKDT"⟩ ∧
     get_timezone "PST" = .ok ⟨-8, "PST"⟩ ∧ get_timezone "PDT" = .ok ⟨-7, "PDT"⟩ ∧
     get_timezone "MST" = .ok ⟨-7, "MST"⟩ ∧ get_timezone "MDT" = .ok ⟨-6, "MDT"⟩ ∧
     get_timezone "CST" = .ok ⟨-6, "CST"⟩ ∧ get_timezone "CDT" = .ok ⟨-5, "CDT"⟩ ∧
     get_timezone "EST" = .ok ⟨-5, "EST"⟩ ∧ get_timezone "EDT" = .ok ⟨-4, "EDT"⟩ ∧
     get_timezone "AST" = .ok ⟨-4, "AST"⟩ ∧ get_timezone "ADT" = .ok ⟨-3, "ADT"⟩) ∧
    ∀ code, code ∉ (["HST", "HDT", "AKST", "AKDT", "PST", "PDT", "MST",
        "MDT", "CST", "CDT", "EST", "EDT", "AST", "ADT"] : List String) →
      get_timezone code = .error (.keyError code) := by
  refine ⟨by decide, ?_⟩
  intro code h
  have hkeys : TIMEZONE_LOOKUP.map Prod.fst =
      ["HST", "HDT", "AKST", "AKDT", "PST", "PDT", "MST",
       "MDT", "CST", "CDT", "EST", "EDT", "AST", "ADT"] := by decide
  have hnone : TIMEZONE_LOOKUP.lookup code = none :=
    lookup_none_of_not_mem_keys _ _ (by rw [hkeys]; exact h)
  simp [get_timezone, hnone]

/-- Witness for C6 at a concrete unsupported code. -/
theorem get_timezone_resolves_w :
    get_timezone "UTC" = .error (.keyError "UTC") :=
  get_timezone_resolves.2 "UTC" (by decide)

/-- C8: `Severity` construction succeeds exactly on the integers 1..6
with the documented members, and a record whose category number is 7
makes `_build_observation` fail with the severity-range error. -/
theorem severity_range :
    (∀ n : Int, (Severity.ofInt n).isSome = true ↔ (1 ≤ n ∧ n ≤ 6)) ∧
    Severity.ofInt 1 = some .GOOD ∧ Severity.ofInt 2 = some .MODERATE ∧
    Severity.ofInt 3 = some .USG ∧ Severity.ofInt 4 = some .UNHEALTHY ∧
    Severity.ofInt 5 = some .VERY_UNHEALTHY ∧ Severity.ofInt 6 = some .HAZARDOUS ∧
    buildObservation [cat7Record] = .error (.invalidSeverity 7) := by
  refine ⟨?_, by decide, by decide, by decide, by decide, by decide, by decide, by rfl⟩
  intro n
  unfold Severity.ofInt
  split_ifs <;> simp_all <;> omega

/-- C5: for a 2-element morning window of valid UTC hours, `is_evening`
returns false exactly when the current UTC clock falls inclusively
between `start_hour:00` and `end_hour:00`; when `end_hour < start_hour`
the window never matches; and at `[15,19]` the results at UTC 16:30,
20:00 and 14:59 are morning, evening, evening. -/
theorem is_evening_spec (s e : Int) (now : Nat)
    (hs : 0 ≤ s ∧ s ≤ 23) (he : 0 ≤ e ∧ e ≤ 23) :
    (is_evening [s, e] now = .ok false ↔
      (s * 3600 ≤ (now : Int) ∧ (now : Int) ≤ e * 3600)) ∧
    (e < s → is_evening [s, e] now = .ok true) ∧
    is_evening [15, 19] 59400 = .ok false ∧
    is_evening [15, 19] 72000 = .ok true ∧
    is_evening [15, 19] 53940 = .ok true := by
  refine ⟨?_, ?_, by decide, by decide, by decide⟩
  · simp only [is_evening]
    rw [if_neg (not_not_intro hs), if_neg (not_not_intro he)]
    by_cases h : s * 3600 ≤ (now : Int) ∧ (now : Int) ≤ e * 3600
    · rw [if_pos h]; exact iff_of_true rfl h
    · rw [if_neg h]; exact iff_of_false (by simp) h
  · intro hlt
    simp only [is_evening]
    rw [if_neg (not_not_intro hs), if_neg (not_not_intro he), if_neg]
    rintro ⟨h1, h2⟩
    omega

/-- Witness for C5 at the window `[15,19]` and UTC 16:30. -/
theorem is_evening_spec_w :
    (is_evening [15, 19] 59400 = .ok false ↔
      ((15 : Int) * 3600 ≤ ((59400 : Nat) : Int) ∧
        ((59400 : Nat) : Int) ≤ (19 : Int) * 3600)) ∧
    ((19 : Int) < 15 → is_evening [15, 19] 59400 = .ok true) ∧
    is_evening [15, 19] 59400 = .ok false ∧
    is_evening [15, 19] 72000 = .ok true ∧
    is_evening [15, 19] 53940 = .ok true :=
  is_evening_spec 15 19 59400 (by decide) (by decide)

/-- C3 counterexample: called on the empty list the builders do NOT
fail with `NoDataError`: `_build_forecasts` returns the empty list
successfully and `_build_observation` raises `IndexError` from
`data[0]`. -/
theorem build_empty_cex :
    buildForecasts ([] : List RawForecastRecord) = .ok [] ∧
    buildObservation ([] : List RawObsRecord) = .error .indexError :=
  ⟨rfl, rfl⟩

/-- C3 amended: `NoDataError` on an empty upstream array is raised by
the client entry points `get_current`/`get_forecast` before the
builders run; `_build_forecasts([])` itself returns `[]` and
`_build_observation([])` raises `IndexError`. -/
theorem empty_data_amended :
    get_current_data ([] : List RawObsRecord) = .error .noData ∧
    get_forecast_data ([] : List RawForecastRecord) = .error .noData ∧
    buildForecasts ([] : List RawForecastRecord) = .ok [] ∧
    buildObservation ([] : List RawObsRecord) = .error .indexError :=
  ⟨rfl, rfl, rfl, rfl⟩

/-- C2: evaluation of the code at the failing input.  A forecast date
group reporting only `O3` makes `Forecast(*args, **kwargs)` fail with
`TypeError` (the metric fields of the `Forecast` dataclass have no
defaults), instead of succeeding with null slots as the spec and the
dataclass docstring describe. -/
theorem forecast_missing_slot_bug :
    buildForecasts [o3OnlyFcRecord] = .error (.missingArgument "CO") := by
  rfl

/-- C7: the target metric slot keyword is the record's `ParameterName`
verbatim except that `PM2.5` is rewritten to `PM2_5`; on five records
with the five distinct API labels (including `PM2.5`),
`_build_observation` fills all five slots and the `PM2_5` slot holds
the metric whose display name is still the verbatim `PM2.5`. -/
theorem metric_slot_naming :
    metricName "PM2.5" = "PM2_5" ∧
    (∀ p, p ≠ "PM2.5" → metricName p = p) ∧
    (buildObservation fiveRecords).toOption.map
        (fun o => (o.CO.isSome, o.NO2.isSome, o.O3.isSome, o.PM2_5, o.PM10.isSome)) =
      some (true, true, true,
        some { name := "PM2.5", AQI := 57, severity := .MODERATE, is_action_day := none },
        true) := by
  refine ⟨rfl, ?_, by rfl⟩
  intro p hp
  simp [metricName, hp]

/-- Witness for C7 at a pass-through label. -/
theorem metric_slot_naming_w : metricName "O3" = "O3" :=
  metric_slot_naming.2.1 "O3" (by decide)

/-- Digit characters are never a newline. -/
theorem digitChar_ne_newline (k : Nat) : Nat.digitChar k ≠ '\n' := by
  rcases Nat.lt_or_ge k 16 with h | h
  · interval_cases k <;> decide
  · have h0 : ¬ k = 0 := by omega
    have h1 : ¬ k = 1 := by omega
    have h2 : ¬ k = 2 := by omega
    have h3 : ¬ k = 3 := by omega
    have h4 : ¬ k = 4 := by omega
    have h5 : ¬ k = 5 := by omega
    have h6 : ¬ k = 6 := by omega
    have h7 : ¬ k = 7 := by omega
    have h8 : ¬ k = 8 := by omega
    have h9 : ¬ k = 9 := by omega
    have h10 : ¬ k = 10 := by omega
    have h11 : ¬ k = 11 := by omega
    have h12 : ¬ k = 12 := by omega
    have h13 : ¬ k = 13 := by omega
    have h14 : ¬ k = 14 := by omega
    have h15 : ¬ k = 15 := by omega
    simp [Nat.digitChar, h0, h1, h2, h3, h4, h5, h6, h7, h8, h9, h10,
      h11, h12, h13, h14, h15]

/-- Characters produced by `Nat.toDigitsCore` come from the
accumulator or are digit characters. -/
theorem toDigitsCore_mem (b : Nat) :
    ∀ (f n : Nat) (ds : List Char) (c : Char), c ∈ Nat.toDigitsCore b f n ds →
      c ∈ ds ∨ ∃ k, c = Nat.digitChar k := by
  intro f
  induction f with
  | zero => intro n ds c hc; exact Or.inl hc
  | succ f ih =>
    intro n ds c hc
    unfold Nat.toDigitsCore at hc
    by_cases h : n / b = 0
    · rw [if_pos h] at hc
      rcases List.mem_cons.mp hc with h1 | h1
      · exact Or.inr ⟨n % b, h1⟩
      · exact Or.inl h1
    · rw [if_neg h] at hc
      rcases ih _ _ _ hc with h1 | h1
      · rcases List.mem_cons.mp h1 with h2 | h2
        · exact Or.inr ⟨n % b, h2⟩
        · exact Or.inl h2
      · exact Or.inr h1

/-- Decimal renderings of naturals contain no newline. -/
theorem newline_not_mem_natRepr (n : Nat) : '\n' ∉ (Nat.repr n).data := by
  intro hmem
  have hm : '\n' ∈ Nat.toDigitsCore 10 (n + 1) n [] := by
    simpa [Nat.repr, Nat.toDigits, List.asString] using hmem
  rcases toDigitsCore_mem 10 (n + 1) n [] '\n' hm with h | ⟨k, hk⟩
  · cases h
  · exact digitChar_ne_newline k hk.symm

/-- Rebuilding a string from its character list is the identity. -/
theorem string_mk_data (s : String) : String.mk s.data = s := by
  cases s; rfl

/-- Concatenation of strings concatenates the character lists. -/
theorem string_data_append (a b : String) : (a ++ b).data = a.data ++ b.data := by
  cases a; cases b; rfl

/-- Decimal renderings of integers contain no newline. -/
theorem newline_not_mem_intToString (i : Int) : '\n' ∉ (toString i).data := by
  have hrepr : toString i = Int.repr i := rfl
  rw [hrepr]
  cases i with
  | ofNat m => exact newline_not_mem_natRepr m
  | negSucc m =>
    intro hmem
    rw [show Int.repr (Int.negSucc m) = "-" ++ Nat.repr (m + 1) from rfl,
      string_data_append] at hmem
    rcases List.mem_append.mp hmem with h | h
    · exact absurd h (by decide)
    · exact newline_not_mem_natRepr _ h

/-- Left-justification adds only spaces, so it preserves
newline-freeness. -/
theorem ljust_no_newline (s : String) (w : Nat) (h : '\n' ∉ s.data) :
    '\n' ∉ (ljust s w).data := by
  unfold ljust
  split_ifs
  · exact h
  · intro hmem
    rw [string_data_append] at hmem
    rcases List.mem_append.mp hmem with h1 | h1
    · exact h h1
    · have := List.eq_of_mem_replicate h1
      cases this

/-- Left-justification to a positive width never yields the empty
string. -/
theorem ljust_data_ne_nil (s : String) (w : Nat) (hw : 0 < w) :
    (ljust s w).data ≠ [] := by
  unfold ljust
  split_ifs with hle
  · intro hnil
    have : s.length = 0 := by
      cases s; simp_all [String.length]
    omega
  · intro hnil
    rw [string_data_append] at hnil
    rcases List.append_eq_nil.mp hnil with ⟨_, h2⟩
    have : w - s.length = 0 := by
      simpa [List.replicate_eq_nil] using h2
    omega

/-- Stripping trailing newlines removes a final newline. -/
theorem rstripNewlines_append_newline (x : String) :
    rstripNewlines (x ++ "\n") = rstripNewlines x := by
  unfold rstripNewlines
  rw [string_data_append, List.reverse_append]
  rfl

/-- Stripping trailing newlines is the identity when the last segment
is nonempty and newline-free. -/
theorem rstripNewlines_of_clean_last (a b : String) (hne : b.data ≠ [])
    (h : '\n' ∉ b.data) : rstripNewlines (a ++ b) = a ++ b := by
  unfold rstripNewlines
  rw [string_data_append, List.reverse_append]
  cases hlb : b.data.reverse with
  | nil => exact absurd (by simpa using hlb) hne
  | cons c t =>
    have hc : c ∈ b.data := by
      rw [← List.mem_reverse, hlb]
      exact List.mem_cons_self _ _
    have hcne : ¬(c = '\n') := fun hcc => h (hcc ▸ hc)
    rw [List.cons_append, List.dropWhile_cons, if_neg (by simpa using hcne),
      ← List.cons_append, ← hlb, ← List.reverse_append, ← string_data_append,
      List.reverse_reverse, string_mk_data]

/-- C4 counterexample: rendering the sample Observation whose only
populated slot is `O3` yields the row with the name RIGHT-justified
(left-padded) and the value LEFT-justified (right-padded) — not the
padding the claim states. -/
theorem aqi_row_padding_cex :
    get_aqi_rows o3OnlyObs.metrics = "      O3  |  42      " ∧
    get_aqi_rows o3OnlyObs.metrics ≠
      ljust "O3" 8 ++ "  |" ++ "  " ++ rjust (toString (42 : Int)) 8 :=
  ⟨by decide, by decide⟩

/-- C4 amended: rendering an Observation whose only populated metric
slot is `O3` produces exactly one metric row — the `O3` row, with the
name left-padded (right-justified) to 8 characters, the separator, and
the AQI value right-padded (left-justified) to 8 characters; the four
null slots produce no row. -/
theorem aqi_rows_single_o3 (o : Observation) (m : AQI)
    (hCO : o.CO = none) (hNO2 : o.NO2 = none) (hO3 : o.O3 = some m)
    (hPM25 : o.PM2_5 = none) (hPM10 : o.PM10 = none) :
    get_aqi_rows o.metrics =
      rjust m.name 8 ++ "  |" ++ "  " ++ ljust (toString m.AQI) 8 := by
  unfold get_aqi_rows Observation.metrics
  rw [hCO, hNO2, hO3, hPM25, hPM10]
  show rstripNewlines ("" ++ aqiRow m) = _
  have hempty : ("" ++ aqiRow m) = aqiRow m := by
    cases h : aqiRow m
    rfl
  rw [hempty]
  unfold aqiRow
  rw [rstripNewlines_append_newline]
  exact rstripNewlines_of_clean_last _ _
    (ljust_data_ne_nil _ 8 (by omega))
    (ljust_no_newline _ 8 (newline_not_mem_intToString _))

/-- Witness for the amended C4 at the sample Observation. -/
theorem aqi_rows_single_o3_w :
    get_aqi_rows o3OnlyObs.metrics =
      rjust o3Metric.name 8 ++ "  |" ++ "  " ++ ljust (toString o3Metric.AQI) 8 :=
  aqi_rows_single_o3 o3OnlyObs o3Metric rfl rfl rfl rfl rfl

/-- Writing to the unknown part of the kwargs dict always leaves it
nonempty. -/
theorem unknownInsert_ne_nil (u : List (String × AQI)) (k : String) (v : AQI) :
    unknownInsert u k v ≠ [] := by
  unfold unknownInsert
  split_ifs with h
  · intro hnil
    rcases u with _ | ⟨p, rest⟩
    · simp at h
    · simp at hnil
  · intro hnil
    rcases List.append_eq_nil.mp hnil with ⟨_, h2⟩
    cases h2

/-- Every kwargs write leaves a trace: a metric slot, the discussion
slot, or the unknown-key list becomes (or stays) populated. -/
theorem set_written (kw : Kwargs) (k : String) (v : AQI) :
    (kw.set k v).written := by
  unfold Kwargs.set Kwargs.written Kwargs.someSlot
  split_ifs
  · exact Or.inl (Or.inl rfl)
  · exact Or.inl (Or.inr (Or.inl rfl))
  · exact Or.inl (Or.inr (Or.inr (Or.inl rfl)))
  · exact Or.inl (Or.inr (Or.inr (Or.inr (Or.inl rfl))))
  · exact Or.inl (Or.inr (Or.inr (Or.inr (Or.inr rfl))))
  · exact Or.inr (Or.inl rfl)
  · exact Or.inr (Or.inr (unknownInsert_ne_nil _ _ _))

/-- A kwargs write never re-empties a slot: `someSlot` is preserved. -/
theorem set_preserves_someSlot (kw : Kwargs) (k : String) (v : AQI)
    (h : kw.someSlot) : (kw.set k v).someSlot := by
  unfold Kwargs.set Kwargs.someSlot at *
  split_ifs
  · exact Or.inl rfl
  · exact Or.inr (Or.inl rfl)
  · exact Or.inr (Or.inr (Or.inl rfl))
  · exact Or.inr (Or.inr (Or.inr (Or.inl rfl)))
  · exact Or.inr (Or.inr (Or.inr (Or.inr rfl)))
  · exact h
  · exact h

/-- A kwargs write never empties the unknown-key list. -/
theorem set_preserves_unknown (kw : Kwargs) (k : String) (v : AQI)
    (h : kw.unknown ≠ []) : (kw.set k v).unknown ≠ [] := by
  unfold Kwargs.set
  split_ifs
  · exact h
  · exact h
  · exact h
  · exact h
  · exact h
  · exact h
  · exact unknownInsert_ne_nil _ _ _

/-- A kwargs write never empties the discussion slot. -/
theorem set_preserves_discussion (kw : Kwargs) (k : String) (v : AQI)
    (h : kw.discussion.isSome = true) : (kw.set k v).discussion.isSome = true := by
  unfold Kwargs.set
  split_ifs
  · exact h
  · exact h
  · exact h
  · exact h
  · exact h
  · rfl
  · exact h

/-- A kwargs write is preserved by later writes. -/
theorem set_preserves_written (kw : Kwargs) (k : String) (v : AQI)
    (h : kw.written) : (kw.set k v).written := by
  rcases h with h | h | h
  · exact Or.inl (set_preserves_someSlot kw k v h)
  · exact Or.inr (Or.inl (set_preserves_discussion kw k v h))
  · exact Or.inr (Or.inr (set_preserves_unknown kw k v h))

/-- A later write preserves the keywords `Observation.__init__` would
reject. -/
theorem set_preserves_rejectedObs (kw : Kwargs) (k : String) (v : AQI)
    (h : kw.rejectedObs) : (kw.set k v).rejectedObs := by
  rcases h with h | h
  · exact Or.inl (set_preserves_discussion kw k v h)
  · exact Or.inr (set_preserves_unknown kw k v h)

/-- Writing under a keyword that is none of the six keywords the
constructors can accept (five slots plus `discussion`) lands in the
unknown-key list. -/
theorem set_unknown_of_not_slot (kw : Kwargs) (k : String) (v : AQI)
    (h : k ∉ (["CO", "NO2", "O3", "PM2_5", "PM10", "discussion"] : List String)) :
    (kw.set k v).unknown ≠ [] := by
  have h1 : ¬ k = "CO" := fun he => h (by simp [he])
  have h2 : ¬ k = "NO2" := fun he => h (by simp [he])
  have h3 : ¬ k = "O3" := fun he => h (by simp [he])
  have h4 : ¬ k = "PM2_5" := fun he => h (by simp [he])
  have h5 : ¬ k = "PM10" := fun he => h (by simp [he])
  have h6 : ¬ k = "discussion" := fun he => h (by simp [he])
  unfold Kwargs.set
  rw [if_neg h1, if_neg h2, if_neg h3, if_neg h4, if_neg h5, if_neg h6]
  exact unknownInsert_ne_nil _ _ _

/-- Writing under a keyword that is not one of the five metric slot
names makes the kwargs dict one that `Observation.__init__` rejects:
it lands either in the discussion slot (not an `Observation` field) or
in the unknown-key list. -/
theorem set_rejectedObs_of_not_slot (kw : Kwargs) (k : String) (v : AQI)
    (h : k ∉ (["CO", "NO2", "O3", "PM2_5", "PM10"] : List String)) :
    (kw.set k v).rejectedObs := by
  by_cases hd : k = "discussion"
  · have h1 : ¬ k = "CO" := fun he => h (by simp [he])
    have h2 : ¬ k = "NO2" := fun he => h (by simp [he])
    have h3 : ¬ k = "O3" := fun he => h (by simp [he])
    have h4 : ¬ k = "PM2_5" := fun he => h (by simp [he])
    have h5 : ¬ k = "PM10" := fun he => h (by simp [he])
    refine Or.inl ?_
    unfold Kwargs.set
    rw [if_neg h1, if_neg h2, if_neg h3, if_neg h4, if_neg h5, if_pos hd]
    rfl
  · refine Or.inr (set_unknown_of_not_slot kw k v ?_)
    intro hmem
    simp only [List.mem_cons, List.not_mem_nil, or_false] at hmem
    rcases hmem with h1 | h1 | h1 | h1 | h1 | h1
    · exact h (by simp [h1])
    · exact h (by simp [h1])
    · exact h (by simp [h1])
    · exact h (by simp [h1])
    · exact h (by simp [h1])
    · exact hd h1

/-- A successful observation kwargs loop over a nonempty record list
(or starting from an already-written dict) ends written. -/
theorem foldKwObs_written : ∀ (l : List RawObsRecord) (kw kw' : Kwargs),
    foldKwObs kw l = .ok kw' → (kw.written ∨ l ≠ []) → kw'.written := by
  intro l
  induction l with
  | nil =>
    intro kw kw' h hw
    cases h
    rcases hw with hw | hne
    · exact hw
    · exact absurd rfl hne
  | cons dp rest ih =>
    intro kw kw' h hw
    unfold foldKwObs at h
    cases hadd : addRecordObs kw dp with
    | error e => rw [hadd] at h; cases h
    | ok kw1 =>
      rw [hadd] at h
      have hk1 : kw1.written := by
        unfold addRecordObs at hadd
        cases hsev : Severity.ofInt dp.CategoryNumber with
        | none => rw [hsev] at hadd; cases hadd
        | some sev =>
          rw [hsev] at hadd
          cases hadd
          exact set_written _ _ _
      exact ih kw1 kw' h (Or.inl hk1)

/-- A successful observation kwargs loop that starts with, or at some
record produces, a keyword outside the five `Observation` metric slots
ends with a kwargs dict that `Observation.__init__` rejects. -/
theorem foldKwObs_rejected : ∀ (l : List RawObsRecord) (kw kw' : Kwargs),
    foldKwObs kw l = .ok kw' →
    (kw.rejectedObs ∨ ∃ dp ∈ l,
      metricName dp.ParameterName ∉ (["CO", "NO2", "O3", "PM2_5", "PM10"] : List String)) →
    kw'.rejectedObs := by
  intro l
  induction l with
  | nil =>
    intro kw kw' h hw
    cases h
    rcases hw with hw | ⟨dp, hmem, _⟩
    · exact hw
    · cases hmem
  | cons dp rest ih =>
    intro kw kw' h hw
    unfold foldKwObs at h
    cases hadd : addRecordObs kw dp with
    | error e => rw [hadd] at h; cases h
    | ok kw1 =>
      rw [hadd] at h
      rcases hw with hw | ⟨dp', hmem, hbad⟩
      · refine ih kw1 kw' h (Or.inl ?_)
        unfold addRecordObs at hadd
        cases hsev : Severity.ofInt dp.CategoryNumber with
        | none => rw [hsev] at hadd; cases hadd
        | some sev =>
          rw [hsev] at hadd
          cases hadd
          exact set_preserves_rejectedObs _ _ _ hw
      · rcases List.mem_cons.mp hmem with heq | hmem'
        · subst heq
          refine ih kw1 kw' h (Or.inl ?_)
          unfold addRecordObs at hadd
          cases hsev : Severity.ofInt dp'.CategoryNumber with
          | none => rw [hsev] at hadd; cases hadd
          | some sev =>
            rw [hsev] at hadd
            cases hadd
            exact set_rejectedObs_of_not_slot _ _ _ hbad
        · exact ih kw1 kw' h (Or.inr ⟨dp', hmem', hbad⟩)

/-- Forecast version of `foldKwObs_written`. -/
theorem foldKwFc_written : ∀ (l : List RawForecastRecord) (kw kw' : Kwargs),
    foldKwFc kw l = .ok kw' → (kw.written ∨ l ≠ []) → kw'.written := by
  intro l
  induction l with
  | nil =>
    intro kw kw' h hw
    cases h
    rcases hw with hw | hne
    · exact hw
    · exact absurd rfl hne
  | cons dp rest ih =>
    intro kw kw' h hw
    unfold foldKwFc at h
    cases hadd : addRecordFc kw dp with
    | error e => rw [hadd] at h; cases h
    | ok kw1 =>
      rw [hadd] at h
      have hk1 : kw1.written := by
        unfold addRecordFc at hadd
        cases hsev : Severity.ofInt dp.CategoryNumber with
        | none => rw [hsev] at hadd; cases hadd
        | some sev =>
          rw [hsev] at hadd
          cases hadd
          exact set_written _ _ _
      exact ih kw1 kw' h (Or.inl hk1)

/-- A successful forecast kwargs loop that starts with, or at some
record produces, a keyword outside the six `Forecast.__init__`
keywords (five slots plus `discussion`) ends with a nonempty
unknown-key list. -/
theorem foldKwFc_unknown : ∀ (l : List RawForecastRecord) (kw kw' : Kwargs),
    foldKwFc kw l = .ok kw' →
    (kw.unknown ≠ [] ∨ ∃ dp ∈ l,
      metricName dp.ParameterName ∉
        (["CO", "NO2", "O3", "PM2_5", "PM10", "discussion"] : List String)) →
    kw'.unknown ≠ [] := by
  intro l
  induction l with
  | nil =>
    intro kw kw' h hw
    cases h
    rcases hw with hw | ⟨dp, hmem, _⟩
    · exact hw
    · cases hmem
  | cons dp rest ih =>
    intro kw kw' h hw
    unfold foldKwFc at h
    cases hadd : addRecordFc kw dp with
    | error e => rw [hadd] at h; cases h
    | ok kw1 =>
      rw [hadd] at h
      rcases hw with hw | ⟨dp', hmem, hbad⟩
      · refine ih kw1 kw' h (Or.inl ?_)
        unfold addRecordFc at hadd
        cases hsev : Severity.ofInt dp.CategoryNumber with
        | none => rw [hsev] at hadd; cases hadd
        | some sev =>
          rw [hsev] at hadd
          cases hadd
          exact set_preserves_unknown _ _ _ hw
      · rcases List.mem_cons.mp hmem with heq | hmem'
        · subst heq
          refine ih kw1 kw' h (Or.inl ?_)
          unfold addRecordFc at hadd
          cases hsev : Severity.ofInt dp'.CategoryNumber with
          | none => rw [hsev] at hadd; cases hadd
          | some sev =>
            rw [hsev] at hadd
            cases hadd
            exact set_unknown_of_not_slot _ _ _ hbad
        · exact ih kw1 kw' h (Or.inr ⟨dp', hmem', hbad⟩)

/-- C9: every Observation successfully built from a non-empty record
list has at least one of its five metric slots populated. -/
theorem observation_some_metric (data : List RawObsRecord) (obs : Observation)
    (hne : 0 < data.length) (h : buildObservation data = .ok obs) :
    obs.CO.isSome = true ∨ obs.NO2.isSome = true ∨ obs.O3.isSome = true ∨
      obs.PM2_5.isSome = true ∨ obs.PM10.isSome = true := by
  cases data with
  | nil => cases h
  | cons first rest =>
    unfold buildObservation at h
    cases hd : parseDateE first.DateObserved with
    | error e => simp only [hd] at h; cases h
    | ok d =>
      simp only [hd] at h
      cases hf : foldKwObs {} (first :: rest) with
      | error e => simp only [hf] at h; cases h
      | ok kw =>
        simp only [hf] at h
        have hwr : kw.written := foldKwObs_written _ _ _ hf (Or.inr (by simp))
        unfold mkObservation at h
        cases hu : kw.unknown with
        | cons p t =>
          obtain ⟨k, v⟩ := p
          simp only [hu] at h
          try cases h
        | nil =>
          simp only [hu] at h
          cases hdis : kw.discussion with
          | some a => simp only [hdis] at h; try cases h
          | none =>
            simp only [hdis] at h
            cases htz : get_timezone first.LocalTimeZone with
            | error e => simp only [htz] at h; try cases h
            | ok tz =>
              simp only [htz] at h
              split_ifs at h with hh
              have hsome : kw.someSlot := by
                rcases hwr with hs | hdd | hun
                · exact hs
                · simp [hdis] at hdd
                · exact absurd hu hun
              cases h
              exact hsome

/-- Witness for C9: a successful build from one concrete record has a
populated slot. -/
theorem observation_some_metric_w :
    ∃ obs, buildObservation fiveRecords = .ok obs ∧
      (obs.CO.isSome = true ∨ obs.NO2.isSome = true ∨ obs.O3.isSome = true ∨
        obs.PM2_5.isSome = true ∨ obs.PM10.isSome = true) :=
  ⟨_, rfl, observation_some_metric fiveRecords _ (by decide) rfl⟩

/-- C10 counterexample: a record whose `ParameterName` is the slot
identifier `PM2_5` — which is none of the five labels the claim lists —
does NOT make `_build_observation` fail: the label passes through
`metricName` unchanged and is a valid constructor keyword, so the build
succeeds and populates the `PM2_5` slot. -/
theorem unknown_pollutant_cex :
    pmuRecord.ParameterName ∉ (["CO", "NO2", "O3", "PM2.5", "PM10"] : List String) ∧
    ∃ obs, buildObservation [pmuRecord] = .ok obs ∧ obs.PM2_5.isSome = true :=
  ⟨by decide, ⟨_, rfl, rfl⟩⟩

/-- The insertion-ordered `dates` dict built by `_build_forecasts` is
exactly: one entry per distinct `DateForecast` value in first-seen
order, whose group is the subsequence of records carrying that date;
the keys are distinct and cover every record's date. -/
theorem groupByDate_spec (data : List RawForecastRecord) :
    groupByDate data =
      (firstSeenDates data).map
        (fun k => (k, data.filter (fun dp => dp.DateForecast == k))) ∧
    (firstSeenDates data).Nodup ∧
    ∀ dp, dp ∈ data → dp.DateForecast ∈ firstSeenDates data := by
  induction data using List.reverseRecOn with
  | nil => exact ⟨rfl, List.nodup_nil, fun dp h => absurd h (List.not_mem_nil dp)⟩
  | append_singleton l a ih =>
    obtain ⟨hg, hnd, hcov⟩ := ih
    have hgrp : groupByDate (l ++ [a]) = insertRecord (groupByDate l) a := by
      unfold groupByDate
      rw [List.foldl_append]
      rfl
    have hfsd : firstSeenDates (l ++ [a]) =
        if a.DateForecast ∈ firstSeenDates l then firstSeenDates l
        else firstSeenDates l ++ [a.DateForecast] := by
      unfold firstSeenDates
      rw [List.foldl_append]
      rfl
    by_cases hmem : a.DateForecast ∈ firstSeenDates l
    · refine ⟨?_, ?_, ?_⟩
      · rw [hgrp, hfsd, if_pos hmem, hg]
        unfold insertRecord
        rw [if_pos (by rw [List.map_map]; simpa using hmem), List.map_map]
        refine List.map_congr_left ?_
        intro k hk
        simp only [Function.comp]
        by_cases hk2 : k = a.DateForecast
        · rw [if_pos hk2, List.filter_append]
          have hfa : [a].filter (fun dp => dp.DateForecast == k) = [a] := by
            simp [List.filter, hk2]
          rw [hfa]
        · rw [if_neg hk2, List.filter_append]
          have hfa : [a].filter (fun dp => dp.DateForecast == k) = [] := by
            simp only [List.filter]
            rw [show (a.DateForecast == k) = false from
              beq_eq_false_iff_ne.mpr (fun he => hk2 he.symm)]
          rw [hfa, List.append_nil]
      · rw [hfsd, if_pos hmem]
        exact hnd
      · intro dp hm
        rw [hfsd, if_pos hmem]
        rcases List.mem_append.mp hm with hm1 | hm1
        · exact hcov dp hm1
        · rw [List.mem_singleton.mp hm1]
          exact hmem
    · refine ⟨?_, ?_, ?_⟩
      · rw [hgrp, hfsd, if_neg hmem, hg]
        unfold insertRecord
        rw [if_neg (by rw [List.map_map]; simpa using hmem), List.map_append]
        congr 1
        · refine List.map_congr_left ?_
          intro k hk
          have hk2 : a.DateForecast ≠ k := fun he => hmem (he ▸ hk)
          rw [List.filter_append]
          have hfa : [a].filter (fun dp => dp.DateForecast == k) = [] := by
            simp only [List.filter]
            rw [show (a.DateForecast == k) = false from beq_eq_false_iff_ne.mpr hk2]
          rw [hfa, List.append_nil]
        · have h1 : l.filter (fun dp => dp.DateForecast == a.DateForecast) = [] := by
            rw [List.filter_eq_nil]
            intro dp hdp hbeq
            exact hmem (beq_iff_eq.mp hbeq ▸ hcov dp hdp)
          have h2 : (l ++ [a]).filter (fun dp => dp.DateForecast == a.DateForecast) = [a] := by
            rw [List.filter_append, h1, List.nil_append]
            simp [List.filter]
          rw [List.map_cons, List.map_nil, h2]
      · rw [hfsd, if_neg hmem, List.nodup_append]
        refine ⟨hnd, List.nodup_singleton _, ?_⟩
        intro x hx hx2
        rw [List.mem_singleton.mp hx2] at hx
        exact hmem hx
      · intro dp hm
        rw [hfsd, if_neg hmem]
        rcases List.mem_append.mp hm with hm1 | hm1
        · exact List.mem_append_left _ (hcov dp hm1)
        · rw [List.mem_singleton.mp hm1]
          exact List.mem_append_right _ (List.mem_singleton_self _)

/-- A successful forecast loop yields one Forecast per group. -/
theorem forecastsOf_ok_length :
    ∀ (gs : List (String × List RawForecastRecord)) (fs : List Forecast),
      forecastsOf gs = .ok fs → fs.length = gs.length := by
  intro gs
  induction gs with
  | nil => intro fs h; cases h; rfl
  | cons g rest ih =>
    intro fs h
    unfold forecastsOf at h
    cases hb : buildForecast g.2 with
    | error e => simp only [hb] at h; try cases h
    | ok f =>
      simp only [hb] at h
      cases hr : forecastsOf rest with
      | error e => simp only [hr] at h; try cases h
      | ok fs' =>
        simp only [hr] at h
        cases h
        simp [ih fs' hr]

/-- A successful forecast loop builds the i-th Forecast from the i-th
group. -/
theorem forecastsOf_ok_get :
    ∀ (gs : List (String × List RawForecastRecord)) (fs : List Forecast),
      forecastsOf gs = .ok fs →
      ∀ i, (hg : i < gs.length) → (hf : i < fs.length) →
        buildForecast (gs[i].2) = .ok fs[i] := by
  intro gs
  induction gs with
  | nil => intro fs h i hg hf; exact absurd hg (by simp)
  | cons g rest ih =>
    intro fs h i hg hf
    unfold forecastsOf at h
    cases hb : buildForecast g.2 with
    | error e => simp only [hb] at h; try cases h
    | ok f =>
      simp only [hb] at h
      cases hr : forecastsOf rest with
      | error e => simp only [hr] at h; try cases h
      | ok fs' =>
        simp only [hr] at h
        cases h
        cases i with
        | zero => simpa using hb
        | succ n =>
          have hg' : n < rest.length := by simpa using hg
          have hf' : n < fs'.length := by simpa using hf
          simpa using ih fs' hr n hg' hf'

/-- Every group of a successful forecast loop built successfully. -/
theorem forecastsOf_ok_mem :
    ∀ (gs : List (String × List RawForecastRecord)) (fs : List Forecast),
      forecastsOf gs = .ok fs → ∀ g ∈ gs, ∃ f, buildForecast g.2 = .ok f := by
  intro gs
  induction gs with
  | nil => intro fs h g hg; cases hg
  | cons g0 rest ih =>
    intro fs h g hg
    unfold forecastsOf at h
    cases hb : buildForecast g0.2 with
    | error e => simp only [hb] at h; try cases h
    | ok f =>
      simp only [hb] at h
      cases hr : forecastsOf rest with
      | error e => simp only [hr] at h; try cases h
      | ok fs' =>
        rcases List.mem_cons.mp hg with heq | hmem
        · exact ⟨f, heq ▸ hb⟩
        · exact ih fs' hr g hmem

/-- A successful `_build_observation` ran its kwargs loop successfully
and ended with no unrecognised keyword. -/
theorem buildObservation_ok_fold (first : RawObsRecord) (rest : List RawObsRecord)
    (obs : Observation) (h : buildObservation (first :: rest) = .ok obs) :
    ∃ kw, foldKwObs {} (first :: rest) = .ok kw ∧
      kw.unknown = [] ∧ kw.discussion = none := by
  unfold buildObservation at h
  cases hd : parseDateE first.DateObserved with
  | error e => simp only [hd] at h; try cases h
  | ok d =>
    simp only [hd] at h
    cases hf : foldKwObs {} (first :: rest) with
    | error e => simp only [hf] at h; try cases h
    | ok kw =>
      refine ⟨kw, rfl, ?_⟩
      simp only [hf] at h
      unfold mkObservation at h
      cases hu : kw.unknown with
      | cons p t =>
        obtain ⟨k, v⟩ := p
        simp only [hu] at h
        try cases h
      | nil =>
        simp only [hu] at h
        cases hdis : kw.discussion with
        | some a => simp only [hdis] at h; try cases h
        | none => exact ⟨rfl, rfl⟩

/-- A successful `buildForecast` ran its kwargs loop successfully and
ended with no unrecognised keyword. -/
theorem buildForecast_ok_fold (first : RawForecastRecord)
    (rest : List RawForecastRecord) (f : Forecast)
    (h : buildForecast (first :: rest) = .ok f) :
    ∃ kw, foldKwFc {} (first :: rest) = .ok kw ∧ kw.unknown = [] := by
  unfold buildForecast at h
  cases hd1 : parseDateE first.DateIssue with
  | error e => simp only [hd1] at h; try cases h
  | ok d1 =>
    simp only [hd1] at h
    cases hd2 : parseDateE first.DateForecast with
    | error e => simp only [hd2] at h; try cases h
    | ok d2 =>
      simp only [hd2] at h
      cases hf : foldKwFc {} (first :: rest) with
      | error e => simp only [hf] at h; try cases h
      | ok kw =>
        refine ⟨kw, rfl, ?_⟩
        simp only [hf] at h
        unfold mkForecast at h
        cases hu : kw.unknown with
        | nil => rfl
        | cons p t =>
          obtain ⟨k, v⟩ := p
          simp only [hu] at h
          try cases h

/-- C10 amended: for `_build_observation`, a record whose
`ParameterName` is outside the six accepted strings (the five API
labels plus the raw slot identifier `PM2_5`, which also passes through
as a valid keyword) makes the build fail rather than skip the record.
For `_build_forecasts` the same holds with one further exception:
`discussion` is a defaulted field of `Forecast`, so its constructor
accepts that keyword and a record labelled `discussion` does not make
the build fail — witnessed by the third conjunct, where a full
five-pollutant group plus a `discussion` record builds successfully
with the record's metric stored in the `discussion` field. -/
theorem unknown_pollutant_amended :
    (∀ data : List RawObsRecord,
      (∃ dp ∈ data, dp.ParameterName ∉
        (["CO", "NO2", "O3", "PM2.5", "PM10", "PM2_5"] : List String)) →
      ∃ e, buildObservation data = .error e) ∧
    (∀ data : List RawForecastRecord,
      (∃ dp ∈ data, dp.ParameterName ∉
        (["CO", "NO2", "O3", "PM2.5", "PM10", "PM2_5", "discussion"] : List String)) →
      ∃ e, buildForecasts data = .error e) ∧
    (buildForecasts fcDiscussionSample).toOption.map
        (fun fs => fs.map (fun f => f.discussion.isSome)) = some [true] := by
  refine ⟨?_, ?_, by rfl⟩
  · rintro data ⟨dp, hmem, hbad⟩
    have hbad' : metricName dp.ParameterName ∉
        (["CO", "NO2", "O3", "PM2_5", "PM10"] : List String) := by
      have hne : dp.ParameterName ≠ "PM2.5" := fun he => hbad (by simp [he])
      unfold metricName
      rw [if_neg hne]
      intro h5
      apply hbad
      simp only [List.mem_cons, List.not_mem_nil, or_false] at h5 ⊢
      tauto
    cases hres : buildObservation data with
    | error e => exact ⟨e, rfl⟩
    | ok obs =>
      exfalso
      cases data with
      | nil => cases hmem
      | cons first rest =>
        obtain ⟨kw, hf, hu, hdis⟩ := buildObservation_ok_fold first rest obs hres
        rcases foldKwObs_rejected _ _ _ hf (Or.inr ⟨dp, hmem, hbad'⟩) with hr | hr
        · rw [hdis] at hr
          simp at hr
        · exact hr hu
  · rintro data ⟨dp, hmem, hbad⟩
    have hbad' : metricName dp.ParameterName ∉
        (["CO", "NO2", "O3", "PM2_5", "PM10", "discussion"] : List String) := by
      have hne : dp.ParameterName ≠ "PM2.5" := fun he => hbad (by simp [he])
      unfold metricName
      rw [if_neg hne]
      intro h5
      apply hbad
      simp only [List.mem_cons, List.not_mem_nil, or_false] at h5 ⊢
      tauto
    cases hres : buildForecasts data with
    | error e => exact ⟨e, rfl⟩
    | ok fs =>
      exfalso
      obtain ⟨hg, hnd, hcov⟩ := groupByDate_spec data
      have hkey : dp.DateForecast ∈ firstSeenDates data := hcov dp hmem
      have hgrpmem :
          (dp.DateForecast,
            data.filter (fun r => r.DateForecast == dp.DateForecast)) ∈
            groupByDate data := by
        rw [hg]
        exact List.mem_map.mpr ⟨dp.DateForecast, hkey, rfl⟩
      obtain ⟨f, hfok⟩ := forecastsOf_ok_mem _ _ hres _ hgrpmem
      have hdpg : dp ∈ data.filter (fun r => r.DateForecast == dp.DateForecast) :=
        List.mem_filter.mpr ⟨hmem, by simp⟩
      cases hgl : data.filter (fun r => r.DateForecast == dp.DateForecast) with
      | nil => rw [hgl] at hdpg; cases hdpg
      | cons gfirst grest =>
        rw [hgl] at hfok hdpg
        obtain ⟨kw, hfold, hunil⟩ := buildForecast_ok_fold gfirst grest f hfok
        exact foldKwFc_unknown _ _ _ hfold (Or.inr ⟨dp, hdpg, hbad'⟩) hunil

/-- Witness for the amended C10 with the unrecognised label `SO2` on
both builders. -/
theorem unknown_pollutant_amended_w :
    (∃ e, buildObservation [so2Record] = .error e) ∧
    (∃ e, buildForecasts [so2FcRecord] = .error e) :=
  ⟨unknown_pollutant_amended.1 [so2Record]
      ⟨so2Record, List.mem_singleton_self _, by decide⟩,
   unknown_pollutant_amended.2.1 [so2FcRecord]
      ⟨so2FcRecord, List.mem_singleton_self _, by decide⟩⟩

/-- C1: whenever `_build_forecasts` returns successfully on a
non-empty record list, it returns exactly one Forecast per distinct
`DateForecast` value, in the order each date was first encountered in
the input (not sorted), and the i-th Forecast is built exactly from
the records of the i-th date group (so its metric slots are populated
only from its own group). -/
theorem build_forecasts_grouping (data : List RawForecastRecord) (fs : List Forecast)
    (hne : 0 < data.length) (h : buildForecasts data = .ok fs) :
    fs.length = (firstSeenDates data).length ∧
    (firstSeenDates data).Nodup ∧
    (∀ dp, dp ∈ data → dp.DateForecast ∈ firstSeenDates data) ∧
    ∀ i, (hi : i < fs.length) → (hk : i < (firstSeenDates data).length) →
      buildForecast
          (data.filter (fun dp => dp.DateForecast == (firstSeenDates data)[i])) =
        .ok fs[i] := by
  obtain ⟨hg, hnd, hcov⟩ := groupByDate_spec data
  have hlen : fs.length = (groupByDate data).length := forecastsOf_ok_length _ _ h
  have hlen2 : (groupByDate data).length = (firstSeenDates data).length := by
    rw [hg, List.length_map]
  refine ⟨hlen.trans hlen2, hnd, hcov, ?_⟩
  intro i hi hk
  have h1 : i < (groupByDate data).length := by rw [hlen2]; exact hk
  have hget := forecastsOf_ok_get _ _ h i h1 hi
  simp only [hg, List.getElem_map] at hget
  exact hget

/-- Witness for C1: ten records, two interleaved dates, five
pollutants each; the build succeeds, yields the two first-seen date
keys in input order, and each Forecast comes from its own group. -/
theorem build_forecasts_grouping_w :
    firstSeenDates fcSample = ["2024-01-02", "2024-01-03"] ∧
    ∃ fs, buildForecasts fcSample = .ok fs ∧
      (fs.length = (firstSeenDates fcSample).length ∧
       (firstSeenDates fcSample).Nodup ∧
       (∀ dp, dp ∈ fcSample → dp.DateForecast ∈ firstSeenDates fcSample) ∧
       ∀ i, (hi : i < fs.length) → (hk : i < (firstSeenDates fcSample).length) →
         buildForecast
             (fcSample.filter (fun dp => dp.DateForecast == (firstSeenDates fcSample)[i])) =
           .ok fs[i]) :=
  ⟨rfl, _, rfl, build_forecasts_grouping fcSample _ (by decide) rfl⟩
